import Mathlib

/-
Verification of the battery-management-system firmware object dictionary
(src/firmware/power-management-objdic.h) against its specification.

Shallow embedding conventions:
* C integer constants become Lean Nat/Int constants with the same names.
* C enums become Lean inductive types; the numeric values assigned in the
  source are captured by explicit toNat encodings.
* C structs become Lean structures with the same field names.
* C arithmetic right shift by 12 on a two's-complement int is floor division
  by 4096; for the positive divisor 4096, Lean's Int division (ediv) is
  floor division, so it models the shift exactly.
* Components whose implementation files are not in src (only prototypes and
  data declarations are) are modelled from the spec; each such definition
  carries a doc comment beginning with: Modelled from the spec.
-/

namespace BMS

/-! ## Topology counts (power-management-objdic.h lines 34-40) -/

def NUM_BATS : Nat := 3

def NUM_LOADS : Nat := 2

def NUM_PANELS : Nat := 1

def NUM_IFS : Nat := NUM_BATS + NUM_LOADS + NUM_PANELS

/-! ## Battery state enumerations (lines 45-53) -/

/-- Battery type: the way the battery is charged (line 45). -/
inductive battery_Type
  | wetT
  | gelT
  | agmT
deriving DecidableEq, Repr

/-- Fill states affecting allocation to load/charger (line 47). -/
inductive battery_Fl_States
  | normalF
  | lowF
  | criticalF
  | faultyF
deriving DecidableEq, Repr, Fintype

/-- Operational states: current allocation to load/charger (line 49). -/
inductive battery_Op_States
  | loadedO
  | chargingO
  | isolatedO
deriving DecidableEq, Repr

/-- Stages in the charge cycle (line 51). -/
inductive battery_Ch_States
  | bulkC
  | absorptionC
  | floatC
  | restC
  | equalizationC
deriving DecidableEq, Repr

/-- Health states (line 53): weak - avoid allocating to load,
faulty - charging did not end cleanly. -/
inductive battery_Hl_States
  | goodH
  | faultyH
  | missingH
  | weakH
deriving DecidableEq, Repr, Fintype

/-- Numeric values the source assigns to the fill-state enumerators
(normalF=0, lowF=1, criticalF=2, faultyF=3). -/
def battery_Fl_States.toNat : battery_Fl_States → Nat
  | .normalF => 0
  | .lowF => 1
  | .criticalF => 2
  | .faultyF => 3

/-- Numeric values the source assigns to the health-state enumerators
(goodH=0, faultyH=1, missingH=2, weakH=3). -/
def battery_Hl_States.toNat : battery_Hl_States → Nat
  | .goodH => 0
  | .faultyH => 1
  | .missingH => 2
  | .weakH => 3

/-- Modelled from the spec: severity rank of a fill state. The spec orders
fill states normal, then low, then critical as successively worse, with
faulty worst (spec 4.3: transitions to a worse fill state are
normal to low to critical). -/
def fillSeverity : battery_Fl_States → Nat
  | .normalF => 0
  | .lowF => 1
  | .criticalF => 2
  | .faultyF => 3

/-- Modelled from the spec: severity rank of a health state. Good is
healthy; weak is milder than faulty and missing (a weak battery is only
deprioritized for load, spec 4.5, while faulty and missing force
isolation); faulty and missing are equally severe (both force isolation). -/
def healthSeverity : battery_Hl_States → Nat
  | .goodH => 0
  | .weakH => 1
  | .faultyH => 2
  | .missingH => 2

/-! ## Task scheduling delays (lines 88-100).
The source computes each delay in FreeRTOS ticks by dividing a
millisecond figure by portTICK_RATE_MS; the source comments state the
tick is 1 ms. -/

def portTICK_RATE_MS : Nat := 1

def WATCHDOG_DELAY : Nat := 512 / portTICK_RATE_MS

def CHARGER_DELAY : Nat := 512 / portTICK_RATE_MS

def MONITOR_DELAY : Nat := 512 / portTICK_RATE_MS

def MEASUREMENT_DELAY : Nat := 512 / portTICK_RATE_MS

def CALIBRATION_DELAY : Nat := 4096 / portTICK_RATE_MS

/-! ## Calibration constants (lines 111-168) -/

def CURRENT_OFFSET : Int := 2028

def CURRENT_SCALE : Int := 8373

/-- Hardware board versions selected by the VERSION macro (lines 118-159). -/
inductive Version
  | v1
  | v2
  | v3
deriving DecidableEq, Repr

def VOLTAGE_OFFSET : Version → Int
  | .v1 => 9453071
  | .v2 => 9611946
  | .v3 => 10565197

def VOLTAGE_SCALE : Version → Int
  | .v1 => 1523
  | .v2 => 1548
  | .v3 => 1418

def TEMPERATURE_SCALE : Int := 328 * 256

def TEMPERATURE_OFFSET : Int := 3412

def TEMPERATURE_LIMIT : Int := 45

/-! ## Battery default parameters (lines 173-178) -/

def BATTERY_CAPACITY_1 : Nat := 100

def BATTERY_CAPACITY_2 : Nat := 100

def BATTERY_CAPACITY_3 : Nat := 100

def BATTERY_TYPE_1 : battery_Type := .wetT

def BATTERY_TYPE_2 : battery_Type := .gelT

def BATTERY_TYPE_3 : battery_Type := .wetT

/-! ## Monitoring default triggers (lines 183-189), absolute voltages times 256 -/

def GOOD_VOLTAGE : Int := 3328

def LOW_VOLTAGE : Int := 3072

def CRITICAL_VOLTAGE : Int := 2995

def WEAK_VOLTAGE : Int := 2944

def LOW_SOC : Int := 60 * 256

def CRITICAL_SOC : Int := 45 * 256

/-! ## Charger algorithm default parameters (lines 195-221) -/

def REST_TIME : Nat := 30

def ABSORPTION_TIME : Nat := 90

def MIN_DUTYCYCLE : Nat := 256

def FLOAT_DELAY : Nat := 7200

def FLOAT_BULK_SOC : Int := 95 * 256

def REST_SoC : Int := 70 * 256

def SoC_HYSTERESIS : Int := 5 * 256

def FLOAT_DELAY_LIMIT : Nat := 10

def CONFIG_BLOCK_SIZE : Nat := 2048

/-! ## Battery state (struct batteryStates, lines 72-82).
All current, voltage, SoC, charge variables are times 256. -/

structure BatteryState where
  currentSteady : Nat
  fillState : battery_Fl_States
  opState : battery_Op_States
  healthState : battery_Hl_States
  lastCurrent : Int
  lastVoltage : Int
  SoC : Int
  charge : Int
  isolationTime : Nat
deriving DecidableEq, Repr

def clamp (lo hi x : Int) : Int := max lo (min x hi)

/-- Modelled from the spec: the BatteryStateEstimator coulomb-counting
update (spec 4.3 step 1); the estimator implementation file is not in src,
only the batteryStates declaration is. Per tick, charge increases by
current times dt and SoC becomes clamp(charge / capacity, 0, 100x256). -/
def coulombUpdate (s : BatteryState) (current dt capacity : Int) : BatteryState :=
  let ch := s.charge + current * dt
  { s with charge := ch, SoC := clamp 0 25600 (ch / capacity) }

/-- Modelled from the spec: the AllocationManager mandatory isolation rule
(spec 4.5: exactly the batteries with healthState faulty or missing are
isolated, mandatory, non-negotiable); the allocation implementation file
is not in src. The candidate argument is whatever assignment the rest of
the policy proposes. -/
def allocateOpState (health : battery_Hl_States)
    (candidate : battery_Op_States) : battery_Op_States :=
  if health = .faultyH ∨ health = .missingH then .isolatedO else candidate

/-- Modelled from the spec: one tick of the estimator-then-allocation
pipeline for one battery (spec 2: data flows CalibrationConverter,
SignalSmoother, BatteryStateEstimator, ChargeStageController,
AllocationManager within one tick; spec 4.3: a health degradation is
reported to AllocationManager on the same tick). newHealth is the health
classification the estimator produced this tick. -/
def tickAllocate (s : BatteryState) (newHealth : battery_Hl_States)
    (candidate : battery_Op_States) : BatteryState :=
  let s2 := { s with healthState := newHealth }
  { s2 with opState := allocateOpState s2.healthState candidate }

/-! ## Calibration conversion -/

/-- Modelled from the spec: the CalibrationConverter contract (spec 4.1),
physicalValue = ((rawSample - offset) * scale) >> 12; the converter
implementation file is not in src, only the offset and scale constants
are. The C arithmetic right shift by 12 is floor division by 4096, which
Lean's Int division is for the positive divisor 4096. -/
def convert (offset scale raw : Int) : Int := ((raw - offset) * scale) / 4096

/-- A calibration channel class with its configured parameter pair. The
current channel's offset is the configured per-interface offset (runtime
settable); the voltage parameters are fixed by the board version; the
temperature parameters are fixed constants (lines 111-167). -/
inductive Channel
  | currentCh (offset : Int)
  | voltageCh (ver : Version)
  | temperatureCh
deriving DecidableEq, Repr

def channelOffset : Channel → Int
  | .currentCh offset => offset
  | .voltageCh ver => VOLTAGE_OFFSET ver
  | .temperatureCh => TEMPERATURE_OFFSET

def channelScale : Channel → Int
  | .currentCh _ => CURRENT_SCALE
  | .voltageCh ver => VOLTAGE_SCALE ver
  | .temperatureCh => TEMPERATURE_SCALE

def convertChannel (ch : Channel) (raw : Int) : Int :=
  convert (channelOffset ch) (channelScale ch) raw

/-! ## Measured data arrays (struct Interface and union InterfaceGroup,
lines 56-68). The source comment on line 63 fixes the flat order:
battery 1-3, load 1-2 and panel, in order. -/

structure Interface where
  battery : Fin 3 → Int
  load : Fin 2 → Int
  panel : Fin 1 → Int

/-- The flat-array view of the named-struct view: data[0..2] are the
battery channels, data[3..4] the load channels and data[5] the panel
channel. -/
def Interface.data (s : Interface) (i : Fin 6) : Int :=
  if h : (i : Nat) < 3 then s.battery ⟨(i : Nat), h⟩
  else if h2 : (i : Nat) < 5 then s.load ⟨(i : Nat) - 3, by omega⟩
  else s.panel ⟨0, by omega⟩

/-- The named-struct view recovered from the flat-array view under the
same index map. -/
def ofData (d : Fin 6 → Int) : Interface where
  battery := fun i => d ⟨(i : Nat), by have := i.isLt; omega⟩
  load := fun i => d ⟨(i : Nat) + 3, by have := i.isLt; omega⟩
  panel := fun _ => d ⟨5, by omega⟩

/-! ## Configuration record (struct Config, lines 228-271) -/

structure Config where
  validBlock : Nat
  enableSend : Bool
  measurementSend : Bool
  debugMessageSend : Bool
  recording : Bool
  batteryCapacity : Fin 3 → Nat
  batteryType : Fin 3 → battery_Type
  absorptionVoltage : Fin 3 → Int
  floatVoltage : Fin 3 → Int
  floatStageCurrentScale : Fin 3 → Int
  bulkCurrentLimitScale : Fin 3 → Int
  alphaR : Int
  alphaV : Int
  alphaC : Int
  autoTrack : Bool
  panelSwitchSetting : Nat
  monitorStrategy : Nat
  lowVoltage : Int
  criticalVoltage : Int
  lowSoC : Int
  criticalSoC : Int
  floatBulkSoC : Int
  chargerStrategy : Nat
  restTime : Int
  absorptionTime : Nat
  minDutyCycle : Int
  floatTime : Int
  watchdogDelay : Nat
  chargerDelay : Nat
  measurementDelay : Nat
  monitorDelay : Nat
  calibrationDelay : Nat
  currentOffsets : Fin 6 → Int

/-- Modelled from the spec: the per-interface current-offset setter whose
prototype is on line 301; its implementation file is not in src. It
stores the offset in the configuration's currentOffsets table at the
given interface index and touches nothing else. -/
def setCurrentOffset (cfg : Config) (interface : Fin 6) (offset : Int) : Config :=
  { cfg with
    currentOffsets := Function.update cfg.currentOffsets interface offset }

/-- Modelled from the spec: the per-interface current-offset getter whose
prototype is on line 300; its implementation file is not in src. -/
def getCurrentOffset (cfg : Config) (interface : Fin 6) : Int :=
  cfg.currentOffsets interface

/-! ## C layout model for union ConfigGroup (lines 276-281).
Each field is an (alignment, size) pair in bytes on the ILP32 ARM target
(bool and uint8_t: 1 byte; int16_t and uint16_t: 2; enum, int and the
uint32_t portTickType: 4; arrays: element alignment, element size times
length). The struct size is the aligned running offset, padded to the
largest field alignment. -/

def alignUp (off a : Nat) : Nat := ((off + a - 1) / a) * a

def structSize (fields : List (Nat × Nat)) : Nat :=
  alignUp (fields.foldl (fun off f => alignUp off f.1 + f.2) 0)
    (fields.foldl (fun m f => max m f.1) 1)

/-- The (alignment, size) pairs of the 33 fields of struct Config, in
declaration order: validBlock; enableSend, measurementSend,
debugMessageSend, recording; batteryCapacity[3]; batteryType[3];
absorptionVoltage[3]; floatVoltage[3]; floatStageCurrentScale[3];
bulkCurrentLimitScale[3]; alphaR; alphaV; alphaC; autoTrack;
panelSwitchSetting; monitorStrategy; lowVoltage; criticalVoltage;
lowSoC; criticalSoC; floatBulkSoC; chargerStrategy; restTime;
absorptionTime; minDutyCycle; floatTime; the five delay fields; and
currentOffsets (union InterfaceGroup, six int16_t). -/
def configFields : List (Nat × Nat) :=
  [(1, 1), (1, 1), (1, 1), (1, 1), (1, 1),
   (2, 6), (4, 12), (2, 6), (2, 6), (2, 6), (2, 6),
   (2, 2), (2, 2), (2, 2),
   (1, 1), (1, 1), (1, 1),
   (2, 2), (2, 2), (2, 2), (2, 2), (2, 2),
   (1, 1), (2, 2), (2, 2), (2, 2), (2, 2),
   (4, 4), (4, 4), (4, 4), (4, 4), (4, 4),
   (2, 12)]

end BMS

namespace BMS

/-- Example battery record used to instantiate hypotheses at a concrete
input. -/
def idleBattery : BatteryState :=
  { currentSteady := 0, fillState := .normalF, opState := .loadedO,
    healthState := .goodH, lastCurrent := 0, lastVoltage := 0,
    SoC := 12800, charge := 0, isolationTime := 0 }

/-- Every configured channel scale is nonnegative: CURRENT_SCALE = 8373,
VOLTAGE_SCALE in {1523, 1548, 1418}, TEMPERATURE_SCALE = 328 * 256. -/
theorem channelScale_nonneg (ch : Channel) : 0 ≤ channelScale ch := by
  cases ch with
  | currentCh offset => exact (by decide : (0 : Int) ≤ CURRENT_SCALE)
  | voltageCh ver => cases ver <;> decide
  | temperatureCh => decide

/-! ## Theorems for claims C3 and C4 -/

/-- Claim C3: the compiled-in default monitoring voltage thresholds against the
spec values 13.0x256, 12.0x256, 11.5x256 and 11.1x256. GOOD_VOLTAGE and
LOW_VOLTAGE match; CRITICAL_VOLTAGE is 2995, not 11.5x256 = 2944, and
WEAK_VOLTAGE is 2944 = 11.5x256, not 11.1x256 = 2841.6 (ten times
WEAK_VOLTAGE would have to be 28416). The source's own comments on lines
185-186 state 11.5V and 11.1V, so the constants contradict the comments. -/
theorem voltage_threshold_defaults :
    GOOD_VOLTAGE = 13 * 256 ∧ LOW_VOLTAGE = 12 * 256 ∧
    CRITICAL_VOLTAGE = 2995 ∧ CRITICAL_VOLTAGE ≠ 23 * 128 ∧
    WEAK_VOLTAGE = 23 * 128 ∧ WEAK_VOLTAGE * 10 ≠ 111 * 256 := by
  refine ⟨rfl, rfl, rfl, by decide, by decide, by decide⟩

/-- Claim C4: every other compiled-in default equals the spec's stated value:
capacities 100/100/100 Ah, types wet/gel/wet, LOW_SOC = 60x256,
CRITICAL_SOC = 45x256, REST_TIME = 30 s, ABSORPTION_TIME = 90 s,
MIN_DUTYCYCLE = 256, FLOAT_DELAY = 7200 s, FLOAT_BULK_SOC = 95x256,
REST_SoC = 70x256, SoC_HYSTERESIS = 5x256, FLOAT_DELAY_LIMIT = 10,
TEMPERATURE_LIMIT = 45, and the default tick periods in milliseconds are
512 for the watchdog, charger, monitor and measurement tasks and 4096 for
calibration. -/
theorem compiled_in_defaults :
    BATTERY_CAPACITY_1 = 100 ∧ BATTERY_CAPACITY_2 = 100 ∧
    BATTERY_CAPACITY_3 = 100 ∧
    BATTERY_TYPE_1 = .wetT ∧ BATTERY_TYPE_2 = .gelT ∧ BATTERY_TYPE_3 = .wetT ∧
    LOW_SOC = 60 * 256 ∧ CRITICAL_SOC = 45 * 256 ∧
    REST_TIME = 30 ∧ ABSORPTION_TIME = 90 ∧ MIN_DUTYCYCLE = 256 ∧
    FLOAT_DELAY = 7200 ∧ FLOAT_BULK_SOC = 95 * 256 ∧ REST_SoC = 70 * 256 ∧
    SoC_HYSTERESIS = 5 * 256 ∧ FLOAT_DELAY_LIMIT = 10 ∧
    TEMPERATURE_LIMIT = 45 ∧
    WATCHDOG_DELAY * portTICK_RATE_MS = 512 ∧
    CHARGER_DELAY * portTICK_RATE_MS = 512 ∧
    MONITOR_DELAY * portTICK_RATE_MS = 512 ∧
    MEASUREMENT_DELAY * portTICK_RATE_MS = 512 ∧
    CALIBRATION_DELAY * portTICK_RATE_MS = 4096 := by
  decide

/-- Claim C1: after the BatteryStateEstimator coulomb-counting update the
stored SoC satisfies 0 ≤ SoC ≤ 100x256 for every starting state, input
current, tick period and capacity, and the value fits a uint16_t without
wrapping (it equals itself modulo 2^16). -/
theorem soc_clamped_after_update (s : BatteryState) (current dt capacity : Int) :
    0 ≤ (coulombUpdate s current dt capacity).SoC ∧
    (coulombUpdate s current dt capacity).SoC ≤ 100 * 256 ∧
    (coulombUpdate s current dt capacity).SoC % 65536
      = (coulombUpdate s current dt capacity).SoC := by
  have hval : (coulombUpdate s current dt capacity).SoC
      = max 0 (min ((s.charge + current * dt) / capacity) 25600) := rfl
  have h0 : 0 ≤ (coulombUpdate s current dt capacity).SoC := by
    rw [hval]; exact le_max_left 0 _
  have h1 : (coulombUpdate s current dt capacity).SoC ≤ 100 * 256 := by
    rw [hval]
    exact max_le (by norm_num) ((min_le_right _ _).trans (by norm_num))
  exact ⟨h0, h1, Int.emod_eq_of_lt h0 (lt_of_le_of_lt h1 (by norm_num))⟩

/-- Claim C2: if the health classification produced on a tick is faultyH or
missingH, the allocation produced on that same tick sets opState to
isolatedO, whatever assignment the rest of the policy proposed. -/
theorem faulty_or_missing_isolated (s : BatteryState)
    (newHealth : battery_Hl_States) (candidate : battery_Op_States)
    (h : newHealth = .faultyH ∨ newHealth = .missingH) :
    (tickAllocate s newHealth candidate).opState = .isolatedO ∧
    (tickAllocate s newHealth candidate).healthState = newHealth := by
  rcases h with h | h <;> subst h <;>
    simp [tickAllocate, allocateOpState]

/-- Witness for claim C2 at a concrete input: a battery classified faultyH
on the current tick is isolated by the same tick's allocation. -/
theorem faulty_or_missing_isolated_witness :
    (battery_Hl_States.faultyH = battery_Hl_States.faultyH ∨
      battery_Hl_States.faultyH = battery_Hl_States.missingH) ∧
    (tickAllocate idleBattery .faultyH .loadedO).opState = .isolatedO :=
  ⟨Or.inl rfl,
    (faulty_or_missing_isolated idleBattery .faultyH .loadedO (Or.inl rfl)).1⟩

/-- Claim C5: the calibration conversion computes
((rawSample - offset) * scale) >> 12 with the channel's configured pair,
and a raw current sample exactly equal to the configured current offset
(whatever per-interface value it is set to) converts to a current of 0. -/
theorem convert_formula_and_zero_at_offset :
    (∀ offset scale raw : Int,
      convert offset scale raw = ((raw - offset) * scale) / 4096) ∧
    (∀ offs : Int, convertChannel (.currentCh offs) offs = 0) := by
  refine ⟨fun _ _ _ => rfl, fun offs => ?_⟩
  simp [convertChannel, convert, channelOffset]

/-- Claim C6: for every channel class with its configured parameter pair
(current with any per-interface offset, voltage of any board version,
temperature), the calibration conversion is monotone nondecreasing in the
raw input. -/
theorem convertChannel_monotone (ch : Channel) (r1 r2 : Int) (h : r1 ≤ r2) :
    convertChannel ch r1 ≤ convertChannel ch r2 := by
  unfold convertChannel convert
  exact Int.ediv_le_ediv (by norm_num)
    (mul_le_mul_of_nonneg_right (sub_le_sub_right h _) (channelScale_nonneg ch))

/-- Witness for claim C6 at a concrete input: on the current channel with
the default offset 2028, raw sample 100 converts no higher than raw
sample 200. -/
theorem convertChannel_monotone_witness :
    (100 : Int) ≤ 200 ∧
    convertChannel (.currentCh CURRENT_OFFSET) 100
      ≤ convertChannel (.currentCh CURRENT_OFFSET) 200 :=
  ⟨by norm_num,
    convertChannel_monotone (.currentCh CURRENT_OFFSET) 100 200 (by norm_num)⟩

/-- Claim C10 counterexample: the claim asserts that for all pairs of
health states, integer order does not coincide with severity order; at
the pair (goodH, faultyH) the integer order (0 < 1) and the severity
order (0 < 2) do coincide, so the universally quantified
non-coincidence is false. -/
theorem health_order_coincides_at_good_faulty :
    battery_Hl_States.toNat .goodH < battery_Hl_States.toNat .faultyH ∧
    healthSeverity .goodH < healthSeverity .faultyH := by
  decide

/-- Claim C10 amended: the fill-state encoding (normalF=0, lowF=1,
criticalF=2, faultyF=3) is strictly increasing in severity, so integer
comparison of fillState values is a valid severity order; the
health-state encoding is not a valid severity order: weakH=3 is milder
than faultyH=1 and missingH=2 yet encodes larger, so integer order and
severity order disagree at those pairs and do not coincide for all
pairs. -/
theorem fill_order_valid_health_order_not :
    (∀ s t : battery_Fl_States, fillSeverity s < fillSeverity t ↔
      battery_Fl_States.toNat s < battery_Fl_States.toNat t) ∧
    (healthSeverity .weakH < healthSeverity .faultyH ∧
      battery_Hl_States.toNat .faultyH < battery_Hl_States.toNat .weakH) ∧
    (healthSeverity .weakH < healthSeverity .missingH ∧
      battery_Hl_States.toNat .missingH < battery_Hl_States.toNat .weakH) ∧
    ¬ (∀ h k : battery_Hl_States, battery_Hl_States.toNat h
        < battery_Hl_States.toNat k ↔ healthSeverity h < healthSeverity k) := by
  decide

/-- Claim C7: NUM_IFS = 6, and the flat-array view and the named-struct
view of the measured data describe the same six channels under the fixed
order-preserving index map battery 0-2, load 3-4, panel 5: the two views
are mutually inverse and reading any channel through either view yields
the same value. -/
theorem interface_views_agree :
    NUM_IFS = 6 ∧
    (∀ d : Fin 6 → Int, (ofData d).data = d) ∧
    (∀ s : Interface, ofData s.data = s) ∧
    (∀ s : Interface,
      s.data 0 = s.battery 0 ∧ s.data 1 = s.battery 1 ∧
      s.data 2 = s.battery 2 ∧ s.data 3 = s.load 0 ∧
      s.data 4 = s.load 1 ∧ s.data 5 = s.panel 0) := by
  refine ⟨rfl, ?_, ?_, ?_⟩
  · intro d
    funext i
    fin_cases i <;> rfl
  · rintro ⟨b, l, p⟩
    simp only [ofData, Interface.data]
    congr 1 <;> funext i <;> fin_cases i <;> rfl
  · intro s
    exact ⟨rfl, rfl, rfl, rfl, rfl, rfl⟩

set_option maxRecDepth 4000 in
/-- Claim C8: the configuration record has the 33 fields declared in
struct Config, and under the ILP32 layout model its size is 112 bytes,
well within the 2048-byte persisted flash block of union ConfigGroup. -/
theorem config_fits_flash_block :
    configFields.length = 33 ∧ structSize configFields = 112 ∧
    structSize configFields ≤ CONFIG_BLOCK_SIZE := by
  decide

/-- Example configuration record holding the compiled-in defaults, used to
instantiate hypotheses at a concrete input. -/
def defaultConfig : Config :=
  { validBlock := 0, enableSend := true, measurementSend := true,
    debugMessageSend := false, recording := false,
    batteryCapacity := fun _ => 100,
    batteryType := fun i => if i = 0 then .wetT else if i = 1 then .gelT else .wetT,
    absorptionVoltage := fun _ => 0, floatVoltage := fun _ => 0,
    floatStageCurrentScale := fun _ => 0, bulkCurrentLimitScale := fun _ => 0,
    alphaR := 0, alphaV := 0, alphaC := 0,
    autoTrack := true, panelSwitchSetting := 0, monitorStrategy := 0,
    lowVoltage := LOW_VOLTAGE, criticalVoltage := CRITICAL_VOLTAGE,
    lowSoC := LOW_SOC, criticalSoC := CRITICAL_SOC,
    floatBulkSoC := FLOAT_BULK_SOC, chargerStrategy := 0,
    restTime := 30, absorptionTime := 90, minDutyCycle := 256,
    floatTime := 7200,
    watchdogDelay := WATCHDOG_DELAY, chargerDelay := CHARGER_DELAY,
    measurementDelay := MEASUREMENT_DELAY, monitorDelay := MONITOR_DELAY,
    calibrationDelay := CALIBRATION_DELAY,
    currentOffsets := fun _ => CURRENT_OFFSET }

/-- Claim C9: setCurrentOffset stores the offset at the given interface
index in the configuration's currentOffsets table and changes nothing
else: every other interface's offset and every other configuration field
is preserved. The voltage and temperature calibration parameters are
compile-time constants with no Config field (see VOLTAGE_OFFSET,
VOLTAGE_SCALE, TEMPERATURE_OFFSET, TEMPERATURE_SCALE and the Config
structure), so no runtime operation can change them. -/
theorem setCurrentOffset_frame (cfg : Config) (i : Fin 6) (v : Int) :
    getCurrentOffset (setCurrentOffset cfg i v) i = v ∧
    (∀ j : Fin 6, j ≠ i →
      getCurrentOffset (setCurrentOffset cfg i v) j = getCurrentOffset cfg j) ∧
    (setCurrentOffset cfg i v).validBlock = cfg.validBlock ∧
    (setCurrentOffset cfg i v).enableSend = cfg.enableSend ∧
    (setCurrentOffset cfg i v).measurementSend = cfg.measurementSend ∧
    (setCurrentOffset cfg i v).debugMessageSend = cfg.debugMessageSend ∧
    (setCurrentOffset cfg i v).recording = cfg.recording ∧
    (setCurrentOffset cfg i v).batteryCapacity = cfg.batteryCapacity ∧
    (setCurrentOffset cfg i v).batteryType = cfg.batteryType ∧
    (setCurrentOffset cfg i v).absorptionVoltage = cfg.absorptionVoltage ∧
    (setCurrentOffset cfg i v).floatVoltage = cfg.floatVoltage ∧
    (setCurrentOffset cfg i v).floatStageCurrentScale
      = cfg.floatStageCurrentScale ∧
    (setCurrentOffset cfg i v).bulkCurrentLimitScale
      = cfg.bulkCurrentLimitScale ∧
    (setCurrentOffset cfg i v).alphaR = cfg.alphaR ∧
    (setCurrentOffset cfg i v).alphaV = cfg.alphaV ∧
    (setCurrentOffset cfg i v).alphaC = cfg.alphaC ∧
    (setCurrentOffset cfg i v).autoTrack = cfg.autoTrack ∧
    (setCurrentOffset cfg i v).panelSwitchSetting = cfg.panelSwitchSetting ∧
    (setCurrentOffset cfg i v).monitorStrategy = cfg.monitorStrategy ∧
    (setCurrentOffset cfg i v).lowVoltage = cfg.lowVoltage ∧
    (setCurrentOffset cfg i v).criticalVoltage = cfg.criticalVoltage ∧
    (setCurrentOffset cfg i v).lowSoC = cfg.lowSoC ∧
    (setCurrentOffset cfg i v).criticalSoC = cfg.criticalSoC ∧
    (setCurrentOffset cfg i v).floatBulkSoC = cfg.floatBulkSoC ∧
    (setCurrentOffset cfg i v).chargerStrategy = cfg.chargerStrategy ∧
    (setCurrentOffset cfg i v).restTime = cfg.restTime ∧
    (setCurrentOffset cfg i v).absorptionTime = cfg.absorptionTime ∧
    (setCurrentOffset cfg i v).minDutyCycle = cfg.minDutyCycle ∧
    (setCurrentOffset cfg i v).floatTime = cfg.floatTime ∧
    (setCurrentOffset cfg i v).watchdogDelay = cfg.watchdogDelay ∧
    (setCurrentOffset cfg i v).chargerDelay = cfg.chargerDelay ∧
    (setCurrentOffset cfg i v).measurementDelay = cfg.measurementDelay ∧
    (setCurrentOffset cfg i v).monitorDelay = cfg.monitorDelay ∧
    (setCurrentOffset cfg i v).calibrationDelay = cfg.calibrationDelay := by
  refine ⟨?_, ?_, rfl, rfl, rfl, rfl, rfl, rfl, rfl, rfl, rfl, rfl, rfl, rfl,
    rfl, rfl, rfl, rfl, rfl, rfl, rfl, rfl, rfl, rfl, rfl, rfl, rfl, rfl,
    rfl, rfl, rfl, rfl, rfl, rfl⟩
  · simp [getCurrentOffset, setCurrentOffset]
  · intro j hj
    simp [getCurrentOffset, setCurrentOffset, Function.update_noteq hj]

/-- Witness for claim C9 at a concrete input: setting interface 2's
current offset to 7 on the default configuration yields 7 at interface 2
and leaves interface 0's offset unchanged. -/
theorem setCurrentOffset_frame_witness :
    getCurrentOffset (setCurrentOffset defaultConfig 2 7) 2 = 7 ∧
    getCurrentOffset (setCurrentOffset defaultConfig 2 7) 0
      = getCurrentOffset defaultConfig 0 :=
  ⟨(setCurrentOffset_frame defaultConfig 2 7).1,
    (setCurrentOffset_frame defaultConfig 2 7).2.1 0 (by decide)⟩

end BMS
